import Mathlib

/-!
Shallow embedding of the serde data model of `src/lsp_types.rs`
(MasterTemple/rust-lsp-types): the JSON wire codecs that the serde derive
macros generate for the LSP message types, modelled as explicit
`decode : Json → Option T` / `encode : T → Json` functions.

Modelling conventions, faithful to `serde` / `serde_json` semantics:
* A JSON document is the inductive `Json`; objects are association lists of
  fields in document order (duplicate keys are representable, as in a JSON
  text).  JSON numbers are modelled as integers (`Int`): every wire value
  exercised by this schema's enumerations, `Integer`, and `UInteger` is
  integral; the source's `Decimal = f64` variant is carried at integral
  values only.
* A derived struct decoder looks each declared field up by key, fails on a
  duplicate declared field, treats a missing or `null` `Option` field as
  `none`, fails on a missing required field, and ignores unknown fields
  (serde's default; the source uses no `deny_unknown_fields`).
* A derived struct encoder emits every declared field in declaration order;
  the source uses no `skip_serializing_if`, so an absent `Option` field is
  emitted as `null`.
* An enum without `#[serde(untagged)]` uses serde's externally tagged
  representation: a newtype variant en/decodes as the one-key object
  `{"VariantName": content}`; a unit variant en/decodes as the bare string
  "VariantName" (or the one-key object with `null` content).  An enum with
  `#[serde(untagged)]` decodes by trying the variants in declaration order
  and taking the first that succeeds.  An enum with `Serialize_repr` /
  `Deserialize_repr` en/decodes as its integer discriminant and rejects any
  other number.
* `BTreeMap` fields decode by inserting the input entries in document order
  into a key-sorted, duplicate-free association list (later entries win),
  and encode in that sorted order.
-/

namespace LSP

/-- JSON values, with objects as field lists in document order and numbers
restricted to integers (see the header comment). -/
inductive Json where
  | null : Json
  | bool (b : Bool) : Json
  | num (n : Int) : Json
  | str (s : String) : Json
  | arr (elems : List Json) : Json
  | obj (fields : List (String × Json)) : Json

/-- `i32` range test: serde rejects a JSON number outside the target's range. -/
def isI32 (n : Int) : Bool := -2147483648 ≤ n && n ≤ 2147483647

/-- `u32` range test. -/
def isU32 (n : Int) : Bool := 0 ≤ n && n ≤ 4294967295

/-- Look a declared field up in a struct's field list: `none` means the serde
visitor errors (duplicate declared field), `some none` means the field is
absent, `some (some v)` that it occurs once with value `v`. -/
def getField (l : List (String × Json)) (k : String) : Option (Option Json) :=
  match l.filter (fun p => p.1 = k) with
  | [] => some none
  | [p] => some (some p.2)
  | _ => none

/-- Decode a required struct field with value decoder `d`. -/
def reqField (l : List (String × Json)) (k : String) (d : Json → Option α) :
    Option α :=
  match getField l k with
  | some (some v) => d v
  | _ => none

/-- Decode an `Option<T>` struct field: missing or `null` is `none`, any other
value must decode with `d` (serde's `Option` semantics). -/
def optField (l : List (String × Json)) (k : String) (d : Json → Option α) :
    Option (Option α) :=
  match getField l k with
  | some none => some none
  | some (some Json.null) => some none
  | some (some v) => (d v).map some
  | none => none

/-- Decoder for `String`. -/
def decodeString : Json → Option String
  | Json.str s => some s
  | _ => none

/-- Decoder for `bool`. -/
def decodeBool : Json → Option Bool
  | Json.bool b => some b
  | _ => none

/-- Decoder for the source's `Integer = i32`, kept as `Int` with the range
check serde performs. -/
def decodeInteger : Json → Option Int
  | Json.num n => if isI32 n then some n else none
  | _ => none

/-- Decoder for the source's `UInteger = u32`. -/
def decodeUInteger : Json → Option Int
  | Json.num n => if isU32 n then some n else none
  | _ => none

/-- Decode the elements of a `Vec<T>` in order; the first failure aborts, as
serde's sequence visitor does. -/
def decodeVecElems (d : Json → Option α) : List Json → Option (List α)
  | [] => some []
  | v :: t =>
    match d v with
    | some a => (decodeVecElems d t).map (fun r => a :: r)
    | none => none

/-- Decoder for `Vec<T>`: a JSON array, every element decoding with `d`. -/
def decodeVec (d : Json → Option α) : Json → Option (List α)
  | Json.arr xs => decodeVecElems d xs
  | _ => none

/-- Encode an `Option` field value: `none` is emitted as `null` (the source
has no `skip_serializing_if`). -/
def encodeOpt (e : α → Json) : Option α → Json
  | none => Json.null
  | some a => e a

/-- Key-ordered insertion used to model `BTreeMap`: keeps the list sorted by
key and duplicate-free, later insertions overwriting earlier ones. -/
def insertSorted (k : String) (v : α) :
    List (String × α) → List (String × α)
  | [] => [(k, v)]
  | (k', v') :: t =>
    if k < k' then (k, v) :: (k', v') :: t
    else if k = k' then (k, v) :: t
    else (k', v') :: insertSorted k v t

/-- Decode `BTreeMap` entries in document order, inserting into the sorted
model (later duplicates win), as `BTreeMap`'s `Deserialize` does. -/
def decodeMapEntries (d : Json → Option α) :
    List (String × Json) → List (String × α) → Option (List (String × α))
  | [], acc => some acc
  | (k, v) :: t, acc =>
    match d v with
    | some a => decodeMapEntries d t (insertSorted k a acc)
    | none => none

/-- Decode a `BTreeMap<String, T>`: entries are decoded and inserted in
document order. -/
def decodeMapOf (d : Json → Option α) : Json → Option (List (String × α))
  | Json.obj l => decodeMapEntries d l []
  | _ => none

/-- Encode a `BTreeMap<String, T>` model (already key-sorted). -/
def encodeMapOf (e : α → Json) (m : List (String × α)) : Json :=
  Json.obj (m.map (fun p => (p.1, e p.2)))

/-- `enum LSPAny` of the source (`lsp_types.rs:61`): the variants are exactly
the source's — `LSPObject(BTreeMap<String, LSPAny>)`, `LSPArray(Vec<LSPAny>)`,
`String`, `Integer`, `UInteger`, `Decimal`, `Boolean`.  The source comments
the `Null` variant out, so there is no null.  `Decimal = f64` is carried at
integral values (see the header comment). -/
inductive LSPAny where
  | LSPObject (o : List (String × LSPAny)) : LSPAny
  | LSPArray (a : List LSPAny) : LSPAny
  | String (s : String) : LSPAny
  | Integer (n : Int) : LSPAny
  | UInteger (n : Int) : LSPAny
  | Decimal (n : Int) : LSPAny
  | Boolean (b : Bool) : LSPAny

mutual

/-- Decoder the derive on `enum LSPAny` generates: the enum has no serde
attribute, so serde uses its externally tagged representation — the input
must be a one-key object whose key names a variant, the content decoding as
that variant's payload.  (All variants are newtype variants, so a bare
string is not accepted either.) -/
def decodeLSPAny : Json → Option LSPAny
  | Json.obj [(k, v)] =>
    if k = "LSPObject" then
      match v with
      | Json.obj l => (decodeLSPObjectEntries l []).map LSPAny.LSPObject
      | _ => none
    else if k = "LSPArray" then
      match v with
      | Json.arr xs => (decodeLSPArrayElems xs).map LSPAny.LSPArray
      | _ => none
    else if k = "String" then (decodeString v).map LSPAny.String
    else if k = "Integer" then (decodeInteger v).map LSPAny.Integer
    else if k = "UInteger" then (decodeUInteger v).map LSPAny.UInteger
    else if k = "Decimal" then
      match v with
      | Json.num n => some (LSPAny.Decimal n)
      | _ => none
    else if k = "Boolean" then (decodeBool v).map LSPAny.Boolean
    else none
  | _ => none

/-- Decode the entries of a `BTreeMap<String, LSPAny>` in document order,
inserting into the sorted map model (later duplicates win), as `BTreeMap`'s
`Deserialize` does. -/
def decodeLSPObjectEntries (l : List (String × Json))
    (acc : List (String × LSPAny)) : Option (List (String × LSPAny)) :=
  match l with
  | [] => some acc
  | (k, v) :: t =>
    match decodeLSPAny v with
    | some a => decodeLSPObjectEntries t (insertSorted k a acc)
    | none => none

/-- Decode the elements of a `Vec<LSPAny>`. -/
def decodeLSPArrayElems (l : List Json) : Option (List LSPAny) :=
  match l with
  | [] => some []
  | v :: t =>
    match decodeLSPAny v with
    | some a => (decodeLSPArrayElems t).map (fun r => a :: r)
    | none => none

end

mutual

/-- Encoder the derive on `enum LSPAny` generates: externally tagged, a
one-key object named after the variant. -/
def encodeLSPAny : LSPAny → Json
  | LSPAny.LSPObject o => Json.obj [("LSPObject", Json.obj (encodeLSPObjectEntries o))]
  | LSPAny.LSPArray a => Json.obj [("LSPArray", Json.arr (encodeLSPArrayElems a))]
  | LSPAny.String s => Json.obj [("String", Json.str s)]
  | LSPAny.Integer n => Json.obj [("Integer", Json.num n)]
  | LSPAny.UInteger n => Json.obj [("UInteger", Json.num n)]
  | LSPAny.Decimal n => Json.obj [("Decimal", Json.num n)]
  | LSPAny.Boolean b => Json.obj [("Boolean", Json.bool b)]

/-- Encode the entries of a `BTreeMap<String, LSPAny>` in its (sorted) order. -/
def encodeLSPObjectEntries : List (String × LSPAny) → List (String × Json)
  | [] => []
  | (k, a) :: t => (k, encodeLSPAny a) :: encodeLSPObjectEntries t

/-- Encode the elements of a `Vec<LSPAny>`. -/
def encodeLSPArrayElems : List LSPAny → List Json
  | [] => []
  | a :: t => encodeLSPAny a :: encodeLSPArrayElems t

end

/-- Encode a `Vec<T>` as a JSON array. -/
def encodeVec (e : α → Json) (l : List α) : Json :=
  Json.arr (l.map e)

/-- `enum IntegerOrString` (`lsp_types.rs:8`): `#[serde(untagged)]`, variants
declared `String(String)` then `Integer(Integer)`. -/
inductive IntegerOrString where
  | String (s : String) : IntegerOrString
  | Integer (n : Int) : IntegerOrString
  deriving DecidableEq

/-- Untagged decoding tries the variants in declaration order — `String`
first, then `Integer` — and takes the first that succeeds. -/
def decodeIntegerOrString (j : Json) : Option IntegerOrString :=
  match (decodeString j).map IntegerOrString.String with
  | some v => some v
  | none => (decodeInteger j).map IntegerOrString.Integer

/-- Untagged encoding emits the populated variant's bare value. -/
def encodeIntegerOrString : IntegerOrString → Json
  | IntegerOrString.String s => Json.str s
  | IntegerOrString.Integer n => Json.num n

/-- `enum ProgressToken` (`lsp_types.rs:270`): `Integer(Integer)` then
`String(String)`, with no serde attribute — externally tagged. -/
inductive ProgressToken where
  | Integer (n : Int) : ProgressToken
  | String (s : String) : ProgressToken
  deriving DecidableEq

/-- Externally tagged decoding of `ProgressToken`: a one-key object keyed by
the variant name; both variants are newtype variants, so a bare number or
string is rejected. -/
def decodeProgressToken : Json → Option ProgressToken
  | Json.obj [(k, v)] =>
    if k = "Integer" then (decodeInteger v).map ProgressToken.Integer
    else if k = "String" then (decodeString v).map ProgressToken.String
    else none
  | _ => none

/-- Externally tagged encoding of `ProgressToken`. -/
def encodeProgressToken : ProgressToken → Json
  | ProgressToken.Integer n => Json.obj [("Integer", Json.num n)]
  | ProgressToken.String s => Json.obj [("String", Json.str s)]

/-- `enum DiagnosticSeverity` (`lsp_types.rs:743`): `Serialize_repr` /
`Deserialize_repr` with `repr(u8)`, discriminants 1–4. -/
inductive DiagnosticSeverity where
  | Error : DiagnosticSeverity
  | Warning : DiagnosticSeverity
  | Information : DiagnosticSeverity
  | Hint : DiagnosticSeverity
  deriving DecidableEq

/-- `Deserialize_repr` accepts exactly the declared discriminants. -/
def decodeDiagnosticSeverity : Json → Option DiagnosticSeverity
  | Json.num n =>
    if n = 1 then some DiagnosticSeverity.Error
    else if n = 2 then some DiagnosticSeverity.Warning
    else if n = 3 then some DiagnosticSeverity.Information
    else if n = 4 then some DiagnosticSeverity.Hint
    else none
  | _ => none

/-- `Serialize_repr` emits the discriminant as a JSON number. -/
def encodeDiagnosticSeverity : DiagnosticSeverity → Json
  | DiagnosticSeverity.Error => Json.num 1
  | DiagnosticSeverity.Warning => Json.num 2
  | DiagnosticSeverity.Information => Json.num 3
  | DiagnosticSeverity.Hint => Json.num 4

/-- `enum DiagnosticTag` (`lsp_types.rs:767`): written with discriminants
`Unnecessary = 1, Deprecated = 2` but derived with the plain `Serialize,
Deserialize` (not the `_repr` derives), so serde uses the externally tagged
representation of an all-unit-variant enum — variant-name strings — and the
discriminants are ignored. -/
inductive DiagnosticTag where
  | Unnecessary : DiagnosticTag
  | Deprecated : DiagnosticTag
  deriving DecidableEq

/-- serde decodes a unit variant from the bare variant-name string, or from
the one-key object with `null` content. -/
def decodeDiagnosticTag : Json → Option DiagnosticTag
  | Json.str s =>
    if s = "Unnecessary" then some DiagnosticTag.Unnecessary
    else if s = "Deprecated" then some DiagnosticTag.Deprecated
    else none
  | Json.obj [(k, Json.null)] =>
    if k = "Unnecessary" then some DiagnosticTag.Unnecessary
    else if k = "Deprecated" then some DiagnosticTag.Deprecated
    else none
  | _ => none

/-- serde encodes a unit variant as the variant-name string. -/
def encodeDiagnosticTag : DiagnosticTag → Json
  | DiagnosticTag.Unnecessary => Json.str "Unnecessary"
  | DiagnosticTag.Deprecated => Json.str "Deprecated"

/-- `enum SymbolKind` (`lsp_types.rs:4756`): `Serialize_repr` /
`Deserialize_repr`, closed set of discriminants 1–26, no fallback variant. -/
inductive SymbolKind where
  | File | Module | Namespace | Package | Class | Method | Property | Field
  | Constructor | Enum | Interface | Function | Variable | Constant | String
  | Number | Boolean | Array | Object | Key | Null | EnumMember | Struct
  | Event | Operator | TypeParameter
  deriving DecidableEq

/-- `Deserialize_repr` accepts exactly the declared discriminants 1–26 and
fails on any other number. -/
def decodeSymbolKind : Json → Option SymbolKind
  | Json.num n =>
    if n = 1 then some SymbolKind.File
    else if n = 2 then some SymbolKind.Module
    else if n = 3 then some SymbolKind.Namespace
    else if n = 4 then some SymbolKind.Package
    else if n = 5 then some SymbolKind.Class
    else if n = 6 then some SymbolKind.Method
    else if n = 7 then some SymbolKind.Property
    else if n = 8 then some SymbolKind.Field
    else if n = 9 then some SymbolKind.Constructor
    else if n = 10 then some SymbolKind.Enum
    else if n = 11 then some SymbolKind.Interface
    else if n = 12 then some SymbolKind.Function
    else if n = 13 then some SymbolKind.Variable
    else if n = 14 then some SymbolKind.Constant
    else if n = 15 then some SymbolKind.String
    else if n = 16 then some SymbolKind.Number
    else if n = 17 then some SymbolKind.Boolean
    else if n = 18 then some SymbolKind.Array
    else if n = 19 then some SymbolKind.Object
    else if n = 20 then some SymbolKind.Key
    else if n = 21 then some SymbolKind.Null
    else if n = 22 then some SymbolKind.EnumMember
    else if n = 23 then some SymbolKind.Struct
    else if n = 24 then some SymbolKind.Event
    else if n = 25 then some SymbolKind.Operator
    else if n = 26 then some SymbolKind.TypeParameter
    else none
  | _ => none

/-- `Serialize_repr` emits a `SymbolKind`'s discriminant. -/
def encodeSymbolKind : SymbolKind → Json
  | SymbolKind.File => Json.num 1
  | SymbolKind.Module => Json.num 2
  | SymbolKind.Namespace => Json.num 3
  | SymbolKind.Package => Json.num 4
  | SymbolKind.Class => Json.num 5
  | SymbolKind.Method => Json.num 6
  | SymbolKind.Property => Json.num 7
  | SymbolKind.Field => Json.num 8
  | SymbolKind.Constructor => Json.num 9
  | SymbolKind.Enum => Json.num 10
  | SymbolKind.Interface => Json.num 11
  | SymbolKind.Function => Json.num 12
  | SymbolKind.Variable => Json.num 13
  | SymbolKind.Constant => Json.num 14
  | SymbolKind.String => Json.num 15
  | SymbolKind.Number => Json.num 16
  | SymbolKind.Boolean => Json.num 17
  | SymbolKind.Array => Json.num 18
  | SymbolKind.Object => Json.num 19
  | SymbolKind.Key => Json.num 20
  | SymbolKind.Null => Json.num 21
  | SymbolKind.EnumMember => Json.num 22
  | SymbolKind.Struct => Json.num 23
  | SymbolKind.Event => Json.num 24
  | SymbolKind.Operator => Json.num 25
  | SymbolKind.TypeParameter => Json.num 26

/-- `struct Position` (`lsp_types.rs:358`): `line`, `character : UInteger`. -/
structure Position where
  line : Int
  character : Int
  deriving DecidableEq

/-- Derived decoder for `Position`. -/
def decodePosition : Json → Option Position
  | Json.obj l => do
    let line ← reqField l "line" decodeUInteger
    let character ← reqField l "character" decodeUInteger
    some ⟨line, character⟩
  | _ => none

/-- Derived encoder for `Position`, fields in declaration order. -/
def encodePosition (p : Position) : Json :=
  Json.obj [("line", Json.num p.line), ("character", Json.num p.character)]

/-- `struct Range` (`lsp_types.rs:419`): `start`, `end : Position` (the
source's `end` field is a Lean keyword, hence the quoted name). -/
structure Range where
  start : Position
  «end» : Position
  deriving DecidableEq

/-- Derived decoder for `Range`. -/
def decodeRange : Json → Option Range
  | Json.obj l => do
    let s ← reqField l "start" decodePosition
    let e ← reqField l "end" decodePosition
    some ⟨s, e⟩
  | _ => none

/-- Derived encoder for `Range`. -/
def encodeRange (r : Range) : Json :=
  Json.obj [("start", encodePosition r.start), ("end", encodePosition r.«end»)]

/-- `struct Location` (`lsp_types.rs:644`): `uri : DocumentUri` (= `String`),
`range : Range`. -/
structure Location where
  uri : String
  range : Range
  deriving DecidableEq

/-- Derived decoder for `Location`. -/
def decodeLocation : Json → Option Location
  | Json.obj l => do
    let uri ← reqField l "uri" decodeString
    let range ← reqField l "range" decodeRange
    some ⟨uri, range⟩
  | _ => none

/-- Derived encoder for `Location`. -/
def encodeLocation (x : Location) : Json :=
  Json.obj [("uri", Json.str x.uri), ("range", encodeRange x.range)]

/-- `struct CodeDescription` (`lsp_types.rs:808`): `href : URI` (= `String`). -/
structure CodeDescription where
  href : String
  deriving DecidableEq

/-- Derived decoder for `CodeDescription`. -/
def decodeCodeDescription : Json → Option CodeDescription
  | Json.obj l => do
    let href ← reqField l "href" decodeString
    some ⟨href⟩
  | _ => none

/-- Derived encoder for `CodeDescription`. -/
def encodeCodeDescription (x : CodeDescription) : Json :=
  Json.obj [("href", Json.str x.href)]

/-- `struct DiagnosticRelatedInformation` (`lsp_types.rs:790`). -/
structure DiagnosticRelatedInformation where
  location : Location
  message : String
  deriving DecidableEq

/-- Derived decoder for `DiagnosticRelatedInformation`. -/
def decodeDiagnosticRelatedInformation : Json → Option DiagnosticRelatedInformation
  | Json.obj l => do
    let location ← reqField l "location" decodeLocation
    let message ← reqField l "message" decodeString
    some ⟨location, message⟩
  | _ => none

/-- Derived encoder for `DiagnosticRelatedInformation`. -/
def encodeDiagnosticRelatedInformation (x : DiagnosticRelatedInformation) : Json :=
  Json.obj [("location", encodeLocation x.location), ("message", Json.str x.message)]

/-- `struct Diagnostic` (`lsp_types.rs:681`): required `range` and `message`,
every other field an `Option`. -/
structure Diagnostic where
  range : Range
  severity : Option DiagnosticSeverity
  code : Option IntegerOrString
  codeDescription : Option CodeDescription
  source : Option String
  message : String
  tags : Option (List DiagnosticTag)
  relatedInformation : Option (List DiagnosticRelatedInformation)
  data : Option LSPAny

/-- Derived decoder for `Diagnostic`: missing or `null` `Option` fields decode
to `none`; unknown fields are ignored. -/
def decodeDiagnostic : Json → Option Diagnostic
  | Json.obj l => do
    let range ← reqField l "range" decodeRange
    let severity ← optField l "severity" decodeDiagnosticSeverity
    let code ← optField l "code" decodeIntegerOrString
    let codeDescription ← optField l "codeDescription" decodeCodeDescription
    let source ← optField l "source" decodeString
    let message ← reqField l "message" decodeString
    let tags ← optField l "tags" (decodeVec decodeDiagnosticTag)
    let relatedInformation ←
      optField l "relatedInformation" (decodeVec decodeDiagnosticRelatedInformation)
    let data ← optField l "data" decodeLSPAny
    some ⟨range, severity, code, codeDescription, source, message, tags,
      relatedInformation, data⟩
  | _ => none

/-- Derived encoder for `Diagnostic`: every declared field is emitted in
declaration order, absent `Option`s as `null`. -/
def encodeDiagnostic (d : Diagnostic) : Json :=
  Json.obj
    [("range", encodeRange d.range),
     ("severity", encodeOpt encodeDiagnosticSeverity d.severity),
     ("code", encodeOpt encodeIntegerOrString d.code),
     ("codeDescription", encodeOpt encodeCodeDescription d.codeDescription),
     ("source", encodeOpt Json.str d.source),
     ("message", Json.str d.message),
     ("tags", encodeOpt (encodeVec encodeDiagnosticTag) d.tags),
     ("relatedInformation",
      encodeOpt (encodeVec encodeDiagnosticRelatedInformation) d.relatedInformation),
     ("data", encodeOpt encodeLSPAny d.data)]

/-- `struct PublishDiagnosticsParams` (`lsp_types.rs:6797`). -/
structure PublishDiagnosticsParams where
  uri : String
  version : Option Int
  diagnostics : List Diagnostic

/-- Derived decoder for `PublishDiagnosticsParams`. -/
def decodePublishDiagnosticsParams : Json → Option PublishDiagnosticsParams
  | Json.obj l => do
    let uri ← reqField l "uri" decodeString
    let version ← optField l "version" decodeInteger
    let diagnostics ← reqField l "diagnostics" (decodeVec decodeDiagnostic)
    some ⟨uri, version, diagnostics⟩
  | _ => none

/-- Derived encoder for `PublishDiagnosticsParams`: the absent `version` is
emitted as `null`. -/
def encodePublishDiagnosticsParams (p : PublishDiagnosticsParams) : Json :=
  Json.obj
    [("uri", Json.str p.uri),
     ("version", encodeOpt Json.num p.version),
     ("diagnostics", encodeVec encodeDiagnostic p.diagnostics)]

/-- `struct ResponseError` (`lsp_types.rs:136`). -/
structure ResponseError where
  code : Int
  message : String
  data : Option LSPAny

/-- Derived decoder for `ResponseError`. -/
def decodeResponseError : Json → Option ResponseError
  | Json.obj l => do
    let code ← reqField l "code" decodeInteger
    let message ← reqField l "message" decodeString
    let data ← optField l "data" decodeLSPAny
    some ⟨code, message, data⟩
  | _ => none

/-- Derived encoder for `ResponseError`. -/
def encodeResponseError (e : ResponseError) : Json :=
  Json.obj
    [("code", Json.num e.code),
     ("message", Json.str e.message),
     ("data", encodeOpt encodeLSPAny e.data)]

/-- `struct ResponseMessage` (`lsp_types.rs:115`): `jsonrpc` required, and
`id`, `result`, `error` three independent `Option` fields. -/
structure ResponseMessage where
  jsonrpc : String
  id : Option IntegerOrString
  result : Option LSPAny
  error : Option ResponseError

/-- Derived decoder for `ResponseMessage`: `result` and `error` are decoded
independently; no shape of co-presence or co-absence is rejected. -/
def decodeResponseMessage : Json → Option ResponseMessage
  | Json.obj l => do
    let jsonrpc ← reqField l "jsonrpc" decodeString
    let id ← optField l "id" decodeIntegerOrString
    let result ← optField l "result" decodeLSPAny
    let error ← optField l "error" decodeResponseError
    some ⟨jsonrpc, id, result, error⟩
  | _ => none

/-- Derived encoder for `ResponseMessage`. -/
def encodeResponseMessage (m : ResponseMessage) : Json :=
  Json.obj
    [("jsonrpc", Json.str m.jsonrpc),
     ("id", encodeOpt encodeIntegerOrString m.id),
     ("result", encodeOpt encodeLSPAny m.result),
     ("error", encodeOpt encodeResponseError m.error)]

/-- `struct OptionalVersionedTextDocumentIdentifier` (`lsp_types.rs:480`):
`uri : DocumentUri`, `version : Option<Integer>` — a single `Option`, so the
wire forms "`version` omitted" and "`version: null`" both decode to `none`. -/
structure OptionalVersionedTextDocumentIdentifier where
  uri : String
  version : Option Int
  deriving DecidableEq

/-- Derived decoder for `OptionalVersionedTextDocumentIdentifier`. -/
def decodeOptionalVersionedTextDocumentIdentifier :
    Json → Option OptionalVersionedTextDocumentIdentifier
  | Json.obj l => do
    let uri ← reqField l "uri" decodeString
    let version ← optField l "version" decodeInteger
    some ⟨uri, version⟩
  | _ => none

/-- Derived encoder for `OptionalVersionedTextDocumentIdentifier`: a `none`
version is emitted as `"version": null`. -/
def encodeOptionalVersionedTextDocumentIdentifier
    (x : OptionalVersionedTextDocumentIdentifier) : Json :=
  Json.obj [("uri", Json.str x.uri), ("version", encodeOpt Json.num x.version)]

/-- `struct TextEdit` (`lsp_types.rs:545`). -/
structure TextEdit where
  range : Range
  newText : String
  deriving DecidableEq

/-- Derived decoder for `TextEdit`. -/
def decodeTextEdit : Json → Option TextEdit
  | Json.obj l => do
    let range ← reqField l "range" decodeRange
    let newText ← reqField l "newText" decodeString
    some ⟨range, newText⟩
  | _ => none

/-- Derived encoder for `TextEdit`. -/
def encodeTextEdit (e : TextEdit) : Json :=
  Json.obj [("range", encodeRange e.range), ("newText", Json.str e.newText)]

/-- `struct AnnotatedTextEdit` (`lsp_types.rs:599`). -/
structure AnnotatedTextEdit where
  range : Range
  newText : String
  annotationId : String
  deriving DecidableEq

/-- Derived decoder for `AnnotatedTextEdit`. -/
def decodeAnnotatedTextEdit : Json → Option AnnotatedTextEdit
  | Json.obj l => do
    let range ← reqField l "range" decodeRange
    let newText ← reqField l "newText" decodeString
    let annotationId ← reqField l "annotationId" decodeString
    some ⟨range, newText, annotationId⟩
  | _ => none

/-- Derived encoder for `AnnotatedTextEdit`. -/
def encodeAnnotatedTextEdit (e : AnnotatedTextEdit) : Json :=
  Json.obj
    [("range", encodeRange e.range), ("newText", Json.str e.newText),
     ("annotationId", Json.str e.annotationId)]

/-- `enum TextEditOrAnnotatedTextEdit` (`lsp_types.rs:622`): no serde
attribute — externally tagged. -/
inductive TextEditOrAnnotatedTextEdit where
  | TextEdit (e : TextEdit) : TextEditOrAnnotatedTextEdit
  | AnnotatedTextEdit (e : AnnotatedTextEdit) : TextEditOrAnnotatedTextEdit
  deriving DecidableEq

/-- Externally tagged decoder for `TextEditOrAnnotatedTextEdit`. -/
def decodeTextEditOrAnnotatedTextEdit : Json → Option TextEditOrAnnotatedTextEdit
  | Json.obj [(k, v)] =>
    if k = "TextEdit" then
      (decodeTextEdit v).map TextEditOrAnnotatedTextEdit.TextEdit
    else if k = "AnnotatedTextEdit" then
      (decodeAnnotatedTextEdit v).map TextEditOrAnnotatedTextEdit.AnnotatedTextEdit
    else none
  | _ => none

/-- Externally tagged encoder for `TextEditOrAnnotatedTextEdit`. -/
def encodeTextEditOrAnnotatedTextEdit : TextEditOrAnnotatedTextEdit → Json
  | TextEditOrAnnotatedTextEdit.TextEdit e =>
    Json.obj [("TextEdit", encodeTextEdit e)]
  | TextEditOrAnnotatedTextEdit.AnnotatedTextEdit e =>
    Json.obj [("AnnotatedTextEdit", encodeAnnotatedTextEdit e)]

/-- `struct TextDocumentEdit` (`lsp_types.rs:628`). -/
structure TextDocumentEdit where
  textDocument : OptionalVersionedTextDocumentIdentifier
  edits : List TextEditOrAnnotatedTextEdit
  deriving DecidableEq

/-- Derived decoder for `TextDocumentEdit`. -/
def decodeTextDocumentEdit : Json → Option TextDocumentEdit
  | Json.obj l => do
    let textDocument ←
      reqField l "textDocument" decodeOptionalVersionedTextDocumentIdentifier
    let edits ← reqField l "edits" (decodeVec decodeTextEditOrAnnotatedTextEdit)
    some ⟨textDocument, edits⟩
  | _ => none

/-- Derived encoder for `TextDocumentEdit`. -/
def encodeTextDocumentEdit (e : TextDocumentEdit) : Json :=
  Json.obj
    [("textDocument", encodeOptionalVersionedTextDocumentIdentifier e.textDocument),
     ("edits", encodeVec encodeTextEditOrAnnotatedTextEdit e.edits)]

/-- `enum WorkspaceEditDocumentChanges` (`lsp_types.rs:1058`):
`#[serde(untagged)]` with the single variant
`TextDocumentEdit(Vec<TextDocumentEdit>)`. -/
inductive WorkspaceEditDocumentChanges where
  | TextDocumentEdit (l : List TextDocumentEdit) : WorkspaceEditDocumentChanges
  deriving DecidableEq

/-- Untagged decoder for `WorkspaceEditDocumentChanges`: the input must be a
JSON array of `TextDocumentEdit`s. -/
def decodeWorkspaceEditDocumentChanges : Json → Option WorkspaceEditDocumentChanges
  | j => (decodeVec decodeTextDocumentEdit j).map
      WorkspaceEditDocumentChanges.TextDocumentEdit

/-- Untagged encoder for `WorkspaceEditDocumentChanges`. -/
def encodeWorkspaceEditDocumentChanges : WorkspaceEditDocumentChanges → Json
  | WorkspaceEditDocumentChanges.TextDocumentEdit l =>
    encodeVec encodeTextDocumentEdit l

/-- `struct ChangeAnnotation` (`lsp_types.rs:565`). -/
structure ChangeAnnotation where
  label : String
  needsConfirmation : Option Bool
  description : Option String
  deriving DecidableEq

/-- Derived decoder for `ChangeAnnotation`. -/
def decodeChangeAnnotation : Json → Option ChangeAnnotation
  | Json.obj l => do
    let label ← reqField l "label" decodeString
    let needsConfirmation ← optField l "needsConfirmation" decodeBool
    let description ← optField l "description" decodeString
    some ⟨label, needsConfirmation, description⟩
  | _ => none

/-- Derived encoder for `ChangeAnnotation`. -/
def encodeChangeAnnotation (a : ChangeAnnotation) : Json :=
  Json.obj
    [("label", Json.str a.label),
     ("needsConfirmation", encodeOpt Json.bool a.needsConfirmation),
     ("description", encodeOpt Json.str a.description)]

/-- `struct WorkspaceEdit` (`lsp_types.rs:1064`): `changes`,
`documentChanges`, `changeAnnotations` — three independent `Option` fields,
with no constraint tying `changes` and `documentChanges` together. -/
structure WorkspaceEdit where
  changes : Option (List (String × List TextEdit))
  documentChanges : Option WorkspaceEditDocumentChanges
  changeAnnotations : Option (List (String × ChangeAnnotation))
  deriving DecidableEq

/-- Derived decoder for `WorkspaceEdit`: the three `Option` fields decode
independently. -/
def decodeWorkspaceEdit : Json → Option WorkspaceEdit
  | Json.obj l => do
    let changes ← optField l "changes" (decodeMapOf (decodeVec decodeTextEdit))
    let documentChanges ←
      optField l "documentChanges" decodeWorkspaceEditDocumentChanges
    let changeAnnotations ←
      optField l "changeAnnotations" (decodeMapOf decodeChangeAnnotation)
    some ⟨changes, documentChanges, changeAnnotations⟩
  | _ => none

/-- Derived encoder for `WorkspaceEdit`. -/
def encodeWorkspaceEdit (w : WorkspaceEdit) : Json :=
  Json.obj
    [("changes", encodeOpt (encodeMapOf (encodeVec encodeTextEdit)) w.changes),
     ("documentChanges",
      encodeOpt encodeWorkspaceEditDocumentChanges w.documentChanges),
     ("changeAnnotations",
      encodeOpt (encodeMapOf encodeChangeAnnotation) w.changeAnnotations)]

/-- Concrete response JSON carrying both a `result` (the tagged `LSPAny`
integer `n`) and an `error` object. -/
def c1BothJson (n : Int) : Json :=
  Json.obj
    [("jsonrpc", Json.str "2.0"), ("id", Json.num 1),
     ("result", Json.obj [("Integer", Json.num n)]),
     ("error", Json.obj [("code", Json.num (-32600)), ("message", Json.str "m")])]

/-- Concrete response JSON carrying neither `result` nor `error`. -/
def c1NeitherJson : Json :=
  Json.obj [("jsonrpc", Json.str "2.0"), ("id", Json.num 1)]

/-- Minimal `PublishDiagnosticsParams` JSON: every optional field omitted. -/
def c2MinimalJson : Json :=
  Json.obj [("uri", Json.str "file:///a.ts"), ("diagnostics", Json.arr [])]

/-- A concrete `Range` JSON used inside the maximal `PublishDiagnosticsParams`
instance. -/
def c2RangeJson : Json :=
  Json.obj
    [("start", Json.obj [("line", Json.num 0), ("character", Json.num 0)]),
     ("end", Json.obj [("line", Json.num 0), ("character", Json.num 5)])]

/-- A maximal `PublishDiagnosticsParams` JSON: every declared optional field of
the params and of the contained `Diagnostic` is present, fields in the structs'
declaration order. -/
def c2MaxJson (uri msg src : String) (ver n : Int) : Json :=
  Json.obj
    [("uri", Json.str uri),
     ("version", Json.num ver),
     ("diagnostics", Json.arr
       [Json.obj
         [("range", c2RangeJson),
          ("severity", Json.num 1),
          ("code", Json.num n),
          ("codeDescription", Json.obj [("href", Json.str "https://errors.example")]),
          ("source", Json.str src),
          ("message", Json.str msg),
          ("tags", Json.arr [Json.str "Unnecessary"]),
          ("relatedInformation", Json.arr
            [Json.obj
              [("location", Json.obj [("uri", Json.str uri), ("range", c2RangeJson)]),
               ("message", Json.str msg)]]),
          ("data", Json.obj [("String", Json.str src)])]])]

/-- Minimal `Diagnostic` JSON whose `code` field is the given value. -/
def c7DiagJson (c : Json) : Json :=
  Json.obj
    [("range", Json.obj
       [("start", Json.obj [("line", Json.num 0), ("character", Json.num 0)]),
        ("end", Json.obj [("line", Json.num 0), ("character", Json.num 5)])]),
     ("code", c), ("message", Json.str "m")]

/-- A concrete `Range` JSON used inside the two-mode `WorkspaceEdit` input. -/
def c8RangeJson : Json :=
  Json.obj
    [("start", Json.obj [("line", Json.num 0), ("character", Json.num 0)]),
     ("end", Json.obj [("line", Json.num 0), ("character", Json.num 5)])]

/-- A `WorkspaceEdit` JSON in which `changes` and `documentChanges` are both
populated. -/
def c8BothJson (uri newText : String) : Json :=
  Json.obj
    [("changes", Json.obj
       [(uri, Json.arr [Json.obj [("range", c8RangeJson), ("newText", Json.str newText)]])]),
     ("documentChanges", Json.arr
       [Json.obj
         [("textDocument", Json.obj [("uri", Json.str uri), ("version", Json.num 1)]),
          ("edits", Json.arr [])]])]

/-- The declared field names of `struct ResponseMessage`. -/
def c10RMDeclared (k : String) : Bool :=
  k = "jsonrpc" || k = "id" || k = "result" || k = "error"

/-- The declared field names of `struct Diagnostic`. -/
def c10DiagDeclared (k : String) : Bool :=
  k = "range" || k = "severity" || k = "code" || k = "codeDescription" ||
  k = "source" || k = "message" || k = "tags" || k = "relatedInformation" ||
  k = "data"

/-- Filtering a field list by a key predicate commutes with the single-key
filter that `getField` performs, whenever the predicate keeps that key. -/
lemma filter_keep (l : List (String × Json)) (P : String → Bool) (k : String)
    (hk : P k = true) :
    (l.filter (fun p => P p.1)).filter (fun p => p.1 = k)
      = l.filter (fun p => p.1 = k) := by
  induction l with
  | nil => rfl
  | cons a t ih =>
    by_cases h : a.1 = k
    · have hPa : P a.1 = true := by rw [h]; exact hk
      simp [List.filter_cons, hPa, h, hk, ih]
    · cases hPa : P a.1 <;> simp [List.filter_cons, hPa, h, ih]

/-- `getField` only looks at the entries bearing its key: dropping every field
whose key a predicate rejects does not change it, provided the predicate keeps
the looked-up key. -/
lemma getField_filter (l : List (String × Json)) (P : String → Bool) (k : String)
    (hk : P k = true) :
    getField (l.filter (fun p => P p.1)) k = getField l k := by
  simp only [getField, filter_keep l P k hk]

/-- Claim C1, counterexample: the decoder generated for `ResponseMessage` does
not enforce mutual exclusivity of `result` and `error` — it accepts a concrete
response JSON carrying both fields, and one carrying neither, instead of
rejecting them. -/
theorem c1_counterexample :
    decodeResponseMessage (c1BothJson 7)
      = some ⟨"2.0", some (IntegerOrString.Integer 1), some (LSPAny.Integer 7),
          some ⟨-32600, "m", none⟩⟩ ∧
    decodeResponseMessage c1NeitherJson
      = some ⟨"2.0", some (IntegerOrString.Integer 1), none, none⟩ := by
  constructor <;>
    simp +decide [c1BothJson, c1NeitherJson, decodeResponseMessage,
      decodeResponseError, reqField, optField, getField, decodeString,
      decodeInteger, decodeIntegerOrString, decodeLSPAny, isI32]

/-- Claim C1 as amended: `result` and `error` are two independent optional
fields of `ResponseMessage`, not a tagged choice — for any in-range result
payload, a response JSON carrying both fields decodes successfully (to a value
with both populated), and one carrying neither also decodes successfully. -/
theorem c1_amended (n : Int) (h1 : -2147483648 ≤ n) (h2 : n ≤ 2147483647) :
    decodeResponseMessage (c1BothJson n)
      = some ⟨"2.0", some (IntegerOrString.Integer 1), some (LSPAny.Integer n),
          some ⟨-32600, "m", none⟩⟩ ∧
    decodeResponseMessage c1NeitherJson
      = some ⟨"2.0", some (IntegerOrString.Integer 1), none, none⟩ := by
  constructor <;>
    simp +decide [c1BothJson, c1NeitherJson, decodeResponseMessage,
      decodeResponseError, reqField, optField, getField, decodeString,
      decodeInteger, decodeIntegerOrString, decodeLSPAny, isI32, h1, h2]

/-- Witness for C1's amended theorem at the concrete payload 5. -/
theorem c1_amended_witness :
    decodeResponseMessage (c1BothJson 5)
      = some ⟨"2.0", some (IntegerOrString.Integer 1), some (LSPAny.Integer 5),
          some ⟨-32600, "m", none⟩⟩ ∧
    decodeResponseMessage c1NeitherJson
      = some ⟨"2.0", some (IntegerOrString.Integer 1), none, none⟩ :=
  c1_amended 5 (by decide) (by decide)

/-- Claim C2, counterexample: re-encoding the decoded minimal
`PublishDiagnosticsParams` JSON does not reproduce the input — the omitted
optional `version` field is re-emitted as `"version": null` (the source has no
`skip_serializing_if`), so `encode (decode json) ≠ json`. -/
theorem c2_counterexample :
    (decodePublishDiagnosticsParams c2MinimalJson).map encodePublishDiagnosticsParams
      = some (Json.obj [("uri", Json.str "file:///a.ts"), ("version", Json.null),
          ("diagnostics", Json.arr [])]) ∧
    (decodePublishDiagnosticsParams c2MinimalJson).map encodePublishDiagnosticsParams
      ≠ some c2MinimalJson := by
  constructor <;>
    simp +decide [c2MinimalJson, decodePublishDiagnosticsParams,
      encodePublishDiagnosticsParams, reqField, optField, getField, decodeString,
      decodeInteger, decodeVec, decodeVecElems, encodeOpt, encodeVec]

/-- Claim C2 as amended: the round trip `encode (decode json) = json` holds for
maximal instances — inputs in which every declared optional field of
`PublishDiagnosticsParams` and of the contained `Diagnostic` is explicitly
present, in declaration order — while for minimal instances the decoder
succeeds but the encoder re-emits absent optional fields as `null` (the
counterexample above). -/
theorem c2_amended (uri msg src : String) (ver n : Int)
    (hv1 : -2147483648 ≤ ver) (hv2 : ver ≤ 2147483647)
    (hn1 : -2147483648 ≤ n) (hn2 : n ≤ 2147483647) :
    (decodePublishDiagnosticsParams (c2MaxJson uri msg src ver n)).map
      encodePublishDiagnosticsParams = some (c2MaxJson uri msg src ver n) := by
  simp +decide [c2MaxJson, c2RangeJson, decodePublishDiagnosticsParams,
    decodeDiagnostic, decodeRange, decodePosition, decodeDiagnosticSeverity,
    decodeIntegerOrString, decodeCodeDescription, decodeDiagnosticTag,
    decodeDiagnosticRelatedInformation, decodeLocation, decodeLSPAny,
    reqField, optField, getField, decodeString, decodeInteger, decodeUInteger,
    decodeVec, decodeVecElems, isI32, isU32, hv1, hv2, hn1, hn2,
    encodePublishDiagnosticsParams, encodeDiagnostic, encodeRange,
    encodePosition, encodeOpt, encodeVec, encodeDiagnosticSeverity,
    encodeIntegerOrString, encodeCodeDescription, encodeDiagnosticTag,
    encodeDiagnosticRelatedInformation, encodeLocation, encodeLSPAny]

/-- Witness for C2's amended theorem at the spec's own example instance. -/
theorem c2_amended_witness :
    (decodePublishDiagnosticsParams
        (c2MaxJson "file:///a.ts" "x is undefined" "ts" 3 5)).map
      encodePublishDiagnosticsParams
      = some (c2MaxJson "file:///a.ts" "x is undefined" "ts" 3 5) :=
  c2_amended "file:///a.ts" "x is undefined" "ts" 3 5
    (by decide) (by decide) (by decide) (by decide)

/-- Claim C3, counterexample: an `OptionalVersionedTextDocumentIdentifier` JSON
with `version` omitted does not round-trip to JSON with `version` omitted — it
re-encodes with `"version": null`, conflating the two wire forms. -/
theorem c3_counterexample :
    (decodeOptionalVersionedTextDocumentIdentifier
        (Json.obj [("uri", Json.str "file:///a.ts")])).map
      encodeOptionalVersionedTextDocumentIdentifier
      = some (Json.obj [("uri", Json.str "file:///a.ts"), ("version", Json.null)]) ∧
    (decodeOptionalVersionedTextDocumentIdentifier
        (Json.obj [("uri", Json.str "file:///a.ts")])).map
      encodeOptionalVersionedTextDocumentIdentifier
      ≠ some (Json.obj [("uri", Json.str "file:///a.ts")]) := by
  constructor <;>
    simp +decide [decodeOptionalVersionedTextDocumentIdentifier,
      encodeOptionalVersionedTextDocumentIdentifier, reqField, optField,
      getField, decodeString, decodeInteger, encodeOpt]

/-- Claim C3 as amended: the `version` field is a single `Option<Integer>`, so
the decoder maps both wire forms — `version` omitted and `"version": null` —
to the same value, and the encoder always emits `"version": null` for it;
the `null` form survives a round trip, the omitted form re-encodes to the
`null` form, and the distinction between the two is collapsed. -/
theorem c3_amended (uri : String) :
    decodeOptionalVersionedTextDocumentIdentifier (Json.obj [("uri", Json.str uri)])
      = some ⟨uri, none⟩ ∧
    decodeOptionalVersionedTextDocumentIdentifier
        (Json.obj [("uri", Json.str uri), ("version", Json.null)])
      = some ⟨uri, none⟩ ∧
    encodeOptionalVersionedTextDocumentIdentifier ⟨uri, none⟩
      = Json.obj [("uri", Json.str uri), ("version", Json.null)] := by
  refine ⟨?_, ?_, rfl⟩ <;>
    simp +decide [decodeOptionalVersionedTextDocumentIdentifier, reqField,
      optField, getField, decodeString]

/-- Claim C4, evaluation at the failing input: `DiagnosticSeverity` (derived
with `Serialize_repr`) does encode `Error` as the JSON number 1, but
`DiagnosticTag` (derived with the plain `Serialize`/`Deserialize`, its
`= 1, = 2` discriminants ignored) encodes `Unnecessary` as the JSON string
"Unnecessary" — not the number 1 — and its decoder rejects the documented
integer wire value 1 while accepting the variant-name string. -/
theorem c4_code_eval :
    encodeDiagnosticSeverity DiagnosticSeverity.Error = Json.num 1 ∧
    encodeSymbolKind SymbolKind.File = Json.num 1 ∧
    encodeDiagnosticTag DiagnosticTag.Unnecessary = Json.str "Unnecessary" ∧
    encodeDiagnosticTag DiagnosticTag.Deprecated = Json.str "Deprecated" ∧
    decodeDiagnosticTag (Json.num 1) = none ∧
    decodeDiagnosticTag (Json.str "Unnecessary") = some DiagnosticTag.Unnecessary :=
  ⟨rfl, rfl, rfl, rfl, rfl, by decide⟩

/-- Claim C5, counterexample: decoding the out-of-range `SymbolKind` value 27
fails instead of succeeding with a fallback variant — the `Deserialize_repr`
enum is closed. -/
theorem c5_counterexample : decodeSymbolKind (Json.num 27) = none := by decide

/-- Claim C5 as amended: `SymbolKind` decoding succeeds exactly on the declared
discriminants 1–26; any other integer is rejected, and no fallback variant
captures unknown raw values. -/
theorem c5_amended (n : Int) :
    (decodeSymbolKind (Json.num n)).isSome ↔ 1 ≤ n ∧ n ≤ 26 := by
  constructor
  · intro h
    by_contra hc
    have hnone : decodeSymbolKind (Json.num n) = none := by
      simp only [decodeSymbolKind]
      repeat rw [if_neg (by omega)]
    rw [hnone] at h
    simp at h
  · rintro ⟨h1, h2⟩
    interval_cases n <;> rfl

/-- Claim C6, evaluation at the failing inputs: `LSPAny` is derived without
`#[serde(untagged)]` and with its `Null` variant commented out, so its decoder
rejects every bare JSON value — string, null, number, bool, array — accepting
only one-key variant-tagged objects, and its encoder wraps values in the
variant-name object rather than emitting them bare. -/
theorem c6_code_eval :
    decodeLSPAny (Json.str "hi") = none ∧
    decodeLSPAny Json.null = none ∧
    decodeLSPAny (Json.num 5) = none ∧
    decodeLSPAny (Json.bool true) = none ∧
    decodeLSPAny (Json.arr []) = none ∧
    encodeLSPAny (LSPAny.String "hi") = Json.obj [("String", Json.str "hi")] ∧
    decodeLSPAny (Json.obj [("String", Json.str "hi")]) = some (LSPAny.String "hi") := by
  refine ⟨?_, ?_, ?_, ?_, ?_, ?_, ?_⟩ <;> simp [decodeLSPAny, decodeString, encodeLSPAny]

/-- Claim C7: untagged decoding of `IntegerOrString` (and hence of
`Diagnostic.code`) selects the variant matching the JSON value's shape, trying
the declared alternatives in order (`String`, then `Integer`) and taking the
first structurally-valid one: a JSON number decodes as `Integer` holding that
number, a JSON string as `String` holding that string — including inside a
`Diagnostic`'s `code` field. -/
theorem c7_untagged (n : Int) (h1 : -2147483648 ≤ n) (h2 : n ≤ 2147483647)
    (s : String) :
    decodeIntegerOrString (Json.num n) = some (IntegerOrString.Integer n) ∧
    decodeIntegerOrString (Json.str s) = some (IntegerOrString.String s) ∧
    (decodeDiagnostic (c7DiagJson (Json.num n))).map (fun d => d.code)
      = some (some (IntegerOrString.Integer n)) ∧
    (decodeDiagnostic (c7DiagJson (Json.str s))).map (fun d => d.code)
      = some (some (IntegerOrString.String s)) := by
  refine ⟨?_, ?_, ?_, ?_⟩ <;>
    simp +decide [c7DiagJson, decodeDiagnostic, decodeRange, decodePosition,
      reqField, optField, getField, decodeString, decodeInteger, decodeUInteger,
      decodeIntegerOrString, isI32, isU32, h1, h2]

/-- Witness for C7 at the spec's own example inputs 5 and "E5". -/
theorem c7_untagged_witness :
    decodeIntegerOrString (Json.num 5) = some (IntegerOrString.Integer 5) ∧
    decodeIntegerOrString (Json.str "E5") = some (IntegerOrString.String "E5") ∧
    (decodeDiagnostic (c7DiagJson (Json.num 5))).map (fun d => d.code)
      = some (some (IntegerOrString.Integer 5)) ∧
    (decodeDiagnostic (c7DiagJson (Json.str "E5"))).map (fun d => d.code)
      = some (some (IntegerOrString.String "E5")) :=
  c7_untagged 5 (by decide) (by decide) "E5"

/-- Claim C8, counterexample: the `WorkspaceEdit` schema does not enforce
mutual exclusivity of the `changes` mode and the `documentChanges` mode — a
concrete JSON carrying both fields decodes successfully, and the accepted
value has both fields simultaneously populated (`isSome` on both). -/
theorem c8_counterexample :
    decodeWorkspaceEdit (c8BothJson "file:///a.ts" "x")
      = some ⟨some [("file:///a.ts", [⟨⟨⟨0, 0⟩, ⟨0, 5⟩⟩, "x"⟩])],
          some (WorkspaceEditDocumentChanges.TextDocumentEdit
            [⟨⟨"file:///a.ts", some 1⟩, []⟩]),
          none⟩ ∧
    (decodeWorkspaceEdit (c8BothJson "file:///a.ts" "x")).map
        (fun w => (w.changes.isSome, w.documentChanges.isSome))
      = some (true, true) := by
  constructor <;>
    simp +decide [c8BothJson, c8RangeJson, decodeWorkspaceEdit, decodeMapOf,
      decodeMapEntries, insertSorted, decodeVec, decodeVecElems, decodeTextEdit,
      decodeRange, decodePosition, decodeWorkspaceEditDocumentChanges,
      decodeTextDocumentEdit, decodeOptionalVersionedTextDocumentIdentifier,
      decodeTextEditOrAnnotatedTextEdit, reqField, optField, getField,
      decodeString, decodeInteger, decodeUInteger, isI32, isU32]

/-- Claim C8 as amended: `changes` and `documentChanges` are independent
optional fields of `WorkspaceEdit`, with no mutual-exclusion constraint — for
any uri and edit text, the JSON populating both decodes successfully to a
value with both fields `some`, i.e. both modes simultaneously populated. -/
theorem c8_amended (uri newText : String) :
    decodeWorkspaceEdit (c8BothJson uri newText)
      = some ⟨some [(uri, [⟨⟨⟨0, 0⟩, ⟨0, 5⟩⟩, newText⟩])],
          some (WorkspaceEditDocumentChanges.TextDocumentEdit [⟨⟨uri, some 1⟩, []⟩]),
          none⟩ ∧
    (decodeWorkspaceEdit (c8BothJson uri newText)).map
        (fun w => (w.changes.isSome, w.documentChanges.isSome))
      = some (true, true) := by
  constructor <;>
    simp +decide [c8BothJson, c8RangeJson, decodeWorkspaceEdit, decodeMapOf,
      decodeMapEntries, insertSorted, decodeVec, decodeVecElems, decodeTextEdit,
      decodeRange, decodePosition, decodeWorkspaceEditDocumentChanges,
      decodeTextDocumentEdit, decodeOptionalVersionedTextDocumentIdentifier,
      decodeTextEditOrAnnotatedTextEdit, reqField, optField, getField,
      decodeString, decodeInteger, decodeUInteger, isI32, isU32]

/-- Claim C9: `ProgressToken`, declared without `#[serde(untagged)]`, uses the
externally tagged representation — its encoder emits the one-key object tagged
with the variant name, never a bare number or string, and its decoder rejects
a bare JSON number or string. -/
theorem c9_tagged (n : Int) (s : String) :
    encodeProgressToken (ProgressToken.Integer n) = Json.obj [("Integer", Json.num n)] ∧
    encodeProgressToken (ProgressToken.String s) = Json.obj [("String", Json.str s)] ∧
    decodeProgressToken (Json.num n) = none ∧
    decodeProgressToken (Json.str s) = none :=
  ⟨rfl, rfl, rfl, rfl⟩

/-- Claim C10: the derived struct decoders tolerate unrecognized fields — for
`ResponseMessage` and `Diagnostic`, decoding any object gives the same result
as decoding the object with everything but the declared fields removed, and a
concrete object carrying an unknown extra field decodes successfully. -/
theorem c10_unknown_fields (l : List (String × Json)) :
    decodeResponseMessage (Json.obj l)
      = decodeResponseMessage (Json.obj (l.filter (fun p => c10RMDeclared p.1))) ∧
    decodeDiagnostic (Json.obj l)
      = decodeDiagnostic (Json.obj (l.filter (fun p => c10DiagDeclared p.1))) ∧
    decodeResponseMessage
        (Json.obj [("jsonrpc", Json.str "2.0"), ("unknownExtensionField", Json.num 7)])
      = some ⟨"2.0", none, none, none⟩ := by
  refine ⟨?_, ?_, ?_⟩
  · simp only [decodeResponseMessage, reqField, optField]
    rw [getField_filter, getField_filter, getField_filter, getField_filter] <;> decide
  · simp only [decodeDiagnostic, reqField, optField]
    rw [getField_filter, getField_filter, getField_filter, getField_filter,
      getField_filter, getField_filter, getField_filter, getField_filter,
      getField_filter] <;> decide
  · simp +decide [decodeResponseMessage, reqField, optField, getField, decodeString]

end LSP
